import Mathlib

/-!
Shallow embedding of the refapp-api configuration-UI core:
the `AtsConfigField` data model (`src/.../lib/ats-types.ts`), the
field-to-control mapper (`AtsConfigFieldPreview` / `AtsConfigPreview`
and their helpers `toSeverity`, `TextContainer`,
`textVariantFromFieldType`), the zod payload schemas built with
`optionalWithNull`, and a document validator modelled from the spec
(the repository ships only the TypeScript type declarations, no
runtime validator for config documents).

JavaScript runtime conventions used throughout the embedding:
- a field's `type` is a runtime string (the TS union is compile-time
  only), so `AtsConfigField.type : String`;
- `x ? a : b` on an optional array is truthy for every array,
  including `[]`, and falsy only for `undefined`;
- `s ? a : b` on an optional string is truthy only for a present,
  non-empty string;
- the `assertIsNever` fall-through of a switch is modelled as `none`.
-/

namespace RefappApi

/-- InfoClass from ats-types.ts: `"info" | "warning" | "error" | "success" | "default"`. -/
inductive InfoClass where
  | info
  | warning
  | error
  | success
  | default
deriving DecidableEq, Repr

/-- Severity values of `AlertProps["severity"]` that `toSeverity` can produce
(`InfoClass` minus `"default"`). -/
inductive Severity where
  | info
  | warning
  | error
  | success
deriving DecidableEq, Repr

/-- Typography variants used by `textVariantFromFieldType` in part_002:
`"h3" | "h4" | "body1"`. -/
inductive TypVariant where
  | h3
  | h4
  | body1
deriving DecidableEq, Repr

/-- HtmlConfigOption from ats-types.ts: `{ id: string; label: string }`. -/
structure HtmlConfigOption where
  id : String
  label : String
deriving DecidableEq, Repr

/-- AtsConfigFieldValue from ats-types.ts: `string | boolean | number`. -/
inductive AtsConfigFieldValue where
  | str (s : String)
  | bool (b : Bool)
  | num (n : Int)
deriving DecidableEq, Repr

/-- AtsConfigField, flattened to its runtime JSON shape: the TS source is a
union of `HtmlConfigField<"select"|"checkbox"|"text">` and
`HtmlConfigField<"header"|"subheader"|"paragraph">` extended with
`label-markdown`, `label-html` and `label-class`; at runtime all of these are
one record with optional attributes and a string `type` tag. -/
structure AtsConfigField where
  id : String
  type : String
  value : Option AtsConfigFieldValue := none
  label : String
  placeholder : Option String := none
  options : Option (List HtmlConfigOption) := none
  disabled : Option Bool := none
  labelMarkdown : Option String := none
  labelHtml : Option String := none
  labelClass : Option InfoClass := none
deriving DecidableEq, Repr

/-- Label field types from ats-types.ts:
`refappLabelFieldTypes = ["header", "subheader", "paragraph"]`. -/
def refappLabelFieldTypes : List String :=
  ["header", "subheader", "paragraph"]

/-- Interactive tags of the union: `HtmlConfigFieldType` (`"select" | "checkbox"
| "text" | "hidden"`) with `"hidden"` excluded, as in
`HtmlConfigField<Exclude<HtmlConfigFieldType, "hidden" | "url" | "radio">>`. -/
def interactiveFieldTypes : List String :=
  ["select", "checkbox", "text"]

/-- All tags of the `AtsConfigField` union: the three interactive tags plus the
three label tags. -/
def knownFieldTypes : List String :=
  interactiveFieldTypes ++ refappLabelFieldTypes

/-- toSeverity from part_002: `if (!value || value === "default") return
undefined; return value;`. Every member of `InfoClass` is a non-empty string,
so `!value` is true exactly for `undefined`. -/
def toSeverity : Option InfoClass → Option Severity
  | none => none
  | some .default => none
  | some .info => some .info
  | some .warning => some .warning
  | some .error => some .error
  | some .success => some .success

/-- textVariantFromFieldType from part_002 as a function of the runtime tag
string: header → h3, subheader → h4, paragraph → body1; the
`assertIsNever` fall-through is `none` (MUI's `variant` prop is optional, so
`Option TypVariant` is the faithful result type). -/
def textVariantFromFieldType (fieldType : String) : Option TypVariant :=
  if fieldType = "header" then some .h3
  else if fieldType = "subheader" then some .h4
  else if fieldType = "paragraph" then some .body1
  else none

/-- Body of a rendered label field: either the `MuiMarkdown` rendering of
`label-markdown`, or a `Typography` with the tag-determined variant showing
the plain `label`. -/
inductive TextBody where
  | markdown (md : String)
  | plain (variant : Option TypVariant) (label : String)
deriving DecidableEq, Repr

/-- Result of `TextContainer`: the children either wrapped in an
`<Alert severity=...>` or left in a bare `React.Fragment`. -/
inductive TextWrapped where
  | alert (severity : Severity) (body : TextBody)
  | fragment (body : TextBody)
deriving DecidableEq, Repr

/-- TextContainer from part_002: computes `toSeverity(labelClass)`; wraps the
children in an `Alert` with that severity when it is defined, otherwise
returns the children in a plain fragment. -/
def TextContainer (labelClass : Option InfoClass) (body : TextBody) : TextWrapped :=
  match toSeverity labelClass with
  | some s => .alert s body
  | none => .fragment body

/-- Rendered control descriptor: the semantically relevant content of the JSX
returned by each branch of `AtsConfigFieldPreview`. `noRender` is the explicit
`null` returned for a select whose `options` is undefined. -/
inductive RenderedControl where
  | checkboxControl (label : String) (disabled : Option Bool) (checked : Bool)
  | textBlock (wrapped : TextWrapped)
  | selectControl (id : String) (label : String) (value : String)
      (disabled : Option Bool) (options : List HtmlConfigOption)
  | noRender
  | textField (label : String) (value : String) (disabled : Option Bool)
      (placeholder : Option String)
deriving DecidableEq, Repr

/-- Value coercion `_.isString(value) ? value : ""` applied to the initial
state (`field.value`). -/
def strOrEmpty : Option AtsConfigFieldValue → String
  | some (.str s) => s
  | _ => ""

/-- Value coercion `_.isBoolean(value) ? value : false` applied to the initial
state (`field.value`). -/
def boolOrFalse : Option AtsConfigFieldValue → Bool
  | some (.bool b) => b
  | _ => false

/-- Content of the label-field branch of `AtsConfigFieldPreview`:
`field["label-markdown"] ? <MuiMarkdown .../> : <Typography variant=...>`.
A present but empty string is falsy in JavaScript, so it selects the plain
branch. -/
def labelContent (fieldType : String) (f : AtsConfigField) : TextBody :=
  match f.labelMarkdown with
  | some md =>
      if md = "" then .plain (textVariantFromFieldType fieldType) f.label
      else .markdown md
  | none => .plain (textVariantFromFieldType fieldType) f.label

/-- AtsConfigFieldPreview from part_002 as a function from a field to the
descriptor of its initial rendering. The switch is mirrored branch by branch
(checkbox; header/subheader/paragraph; select; text); the trailing
`return assertIsNever(field)` is the `none` fall-through. The select branch
tests `field.options ?`, which is truthy for every array (also `[]`) and
falsy only for `undefined`. -/
def describe (f : AtsConfigField) : Option RenderedControl :=
  if f.type = "checkbox" then
    some (.checkboxControl f.label f.disabled (boolOrFalse f.value))
  else if f.type = "header" ∨ f.type = "subheader" ∨ f.type = "paragraph" then
    some (.textBlock (TextContainer f.labelClass (labelContent f.type f)))
  else if f.type = "select" then
    match f.options with
    | some opts => some (.selectControl f.id f.label (strOrEmpty f.value) f.disabled opts)
    | none => some .noRender
  else if f.type = "text" then
    some (.textField f.label (strOrEmpty f.value) f.disabled f.placeholder)
  else none

/-- AtsConfigPreview from part_002: maps `AtsConfigFieldPreview` over
`configFields` in order inside a flex `Box`. -/
def AtsConfigPreview (configFields : List AtsConfigField) : List (Option RenderedControl) :=
  configFields.map describe

/-- Untyped JSON-like value, the input of validation (numbers are kept
abstract as integers; no claim depends on numeric semantics). -/
inductive Json where
  | null
  | bool (b : Bool)
  | num (n : Int)
  | str (s : String)
  | arr (items : List Json)
  | obj (entries : List (String × Json))

/-- Lookup of a key in a JSON object, first occurrence wins. -/
def getField (entries : List (String × Json)) (key : String) : Option Json :=
  (entries.find? (fun p => p.fst = key)).map Prod.snd

/-- Error taxonomy of the spec: `StructuralError` for envelope failures,
`FieldShapeError` for a malformed field entry. -/
inductive ValidationError where
  | structural (msg : String)
  | fieldShape (msg : String)
deriving DecidableEq, Repr

/-- Parse of a required string attribute (`id`, `label`): absent, null or
non-string rejects the field entry. -/
def parseReqString : Option Json → Except ValidationError String
  | some (.str s) => .ok s
  | _ => .error (.fieldShape "missing-required-string")

/-- Parse of the `type` attribute: must be present as a string and be one of
the known tags of the `AtsConfigField` union. -/
def parseFieldType (j : Option Json) : Except ValidationError String :=
  match j with
  | some (.str t) =>
      if t ∈ knownFieldTypes then .ok t
      else .error (.fieldShape "unrecognized-type")
  | _ => .error (.fieldShape "missing-type")

/-- Parse of an optional string attribute with the null-coercion rule:
absent and null both normalize to `none`. -/
def parseOptString : Option Json → Except ValidationError (Option String)
  | none => .ok none
  | some .null => .ok none
  | some (.str s) => .ok (some s)
  | some _ => .error (.fieldShape "expected-string")

/-- Parse of an optional boolean attribute (`disabled`), null coerced to
absent. -/
def parseOptBool : Option Json → Except ValidationError (Option Bool)
  | none => .ok none
  | some .null => .ok none
  | some (.bool b) => .ok (some b)
  | some _ => .error (.fieldShape "expected-boolean")

/-- Parse of a `value` attribute into the loosened union
`string | boolean | number`; anything else is tolerated by dropping the
value ("mismatches are treated as absent ... never as a validation
failure"). -/
def parseOptValue : Option Json → Except ValidationError (Option AtsConfigFieldValue)
  | none => .ok none
  | some (.str s) => .ok (some (.str s))
  | some (.bool b) => .ok (some (.bool b))
  | some (.num n) => .ok (some (.num n))
  | some _ => .ok none

/-- Parse of a `label-class` attribute into `InfoClass`, null coerced to
absent; a string outside the enumeration rejects the field entry. -/
def parseOptInfoClass : Option Json → Except ValidationError (Option InfoClass)
  | none => .ok none
  | some .null => .ok none
  | some (.str s) =>
      if s = "info" then .ok (some .info)
      else if s = "warning" then .ok (some .warning)
      else if s = "error" then .ok (some .error)
      else if s = "success" then .ok (some .success)
      else if s = "default" then .ok (some .default)
      else .error (.fieldShape "unknown-label-class")
  | some _ => .error (.fieldShape "expected-info-class")

/-- Parse of one entry of `options`: an object with string `id` and
`label`. -/
def parseOption (j : Json) : Except ValidationError HtmlConfigOption :=
  match j with
  | .obj kvs => do
      let id ← parseReqString (getField kvs "id")
      let label ← parseReqString (getField kvs "label")
      pure ⟨id, label⟩
  | _ => .error (.fieldShape "option-not-object")

/-- Parse of the optional `options` attribute: absent or null normalize to
`none`; a present value must be an array of well-formed options. -/
def parseOptOptions : Option Json → Except ValidationError (Option (List HtmlConfigOption))
  | none => .ok none
  | some .null => .ok none
  | some (.arr items) => do
      let opts ← items.mapM parseOption
      pure (some opts)
  | some _ => .error (.fieldShape "expected-options-array")

/-- Modelled from the spec: the repository declares the `AtsConfigField`
shape only as TypeScript types and ships no runtime validator for config
documents (`fetchFromGitHub` casts the decoded JSON), so the per-field
validation is modelled from spec section 4.1: reject an entry that lacks
`id`, `type` or `label` or whose `type` is not a known tag; coerce null to
absent on every optional attribute; tolerate a wrong-subtype `value` by
dropping the value and keeping the field. -/
def parseField (j : Json) : Except ValidationError AtsConfigField :=
  match j with
  | .obj kvs =>
      (parseFieldType (getField kvs "type")).bind fun t =>
      (parseReqString (getField kvs "id")).bind fun id =>
      (parseReqString (getField kvs "label")).bind fun label =>
      (parseOptValue (getField kvs "value")).bind fun value =>
      (parseOptString (getField kvs "placeholder")).bind fun placeholder =>
      (parseOptOptions (getField kvs "options")).bind fun options =>
      (parseOptBool (getField kvs "disabled")).bind fun disabled =>
      (parseOptString (getField kvs "label-markdown")).bind fun labelMarkdown =>
      (parseOptString (getField kvs "label-html")).bind fun labelHtml =>
      (parseOptInfoClass (getField kvs "label-class")).bind fun labelClass =>
      .ok ⟨id, t, value, label, placeholder, options, disabled,
           labelMarkdown, labelHtml, labelClass⟩
  | _ => .error (.fieldShape "field-not-object")

/-- Sequential validation of the field entries, failing on the first
malformed entry (whole-document rejection). -/
def parseFields : List Json → Except ValidationError (List AtsConfigField)
  | [] => .ok []
  | j :: rest =>
      (parseField j).bind fun f =>
      (parseFields rest).bind fun fs =>
      .ok (f :: fs)

/-- Modelled from the spec: `validate(raw) -> Result<ConfigDocument,
ValidationError>` of spec section 4.1 — the envelope `{config: {fields:
[...]}}` must be an object holding an object holding an array, otherwise a
`StructuralError`; then every field entry is validated in order. -/
def validate (raw : Json) : Except ValidationError (List AtsConfigField) :=
  match raw with
  | .obj kvs =>
      match getField kvs "config" with
      | some (.obj ckvs) =>
          match getField ckvs "fields" with
          | some (.arr items) => parseFields items
          | _ => .error (.structural "missing-fields-array")
      | _ => .error (.structural "missing-config")
  | _ => .error (.structural "document-not-object")

/-- Pipeline "validate before map": the mapper is applied only to the output
of successful validation, so a rejected document yields an error and zero
descriptors. -/
def describeDocument (raw : Json) : Except ValidationError (List (Option RenderedControl)) :=
  (validate raw).map AtsConfigPreview

/-- Runtime `type` tag of a raw field entry, when it is an object carrying a
string under `"type"`. -/
def typeTagOf (j : Json) : Option String :=
  match j with
  | .obj kvs =>
      match getField kvs "type" with
      | some (.str t) => some t
      | _ => none
  | _ => none

/-- Zod helper `optionalWithNull` from ats-types.ts:
`t.nullish().transform((v) => (v === null ? undefined : v))` — an absent or
null attribute both parse to `undefined`; otherwise the inner schema runs. -/
def optionalWithNull (sub : Json → Option α) : Option Json → Option (Option α)
  | none => some none
  | some .null => some none
  | some j => (sub j).map some

/-- Zod `.optional()` without the null helper (as on `partner-result.status`):
an absent attribute parses to `undefined`, but a present value — null
included — is handed to the inner schema. -/
def plainOptional (sub : Json → Option α) : Option Json → Option (Option α)
  | none => some none
  | some j => (sub j).map some

/-- Schema `z.string()`. -/
def zString : Json → Option String
  | .str s => some s
  | _ => none

/-- Schema `z.boolean()`. -/
def zBool : Json → Option Bool
  | .bool b => some b
  | _ => none

/-- Id values accepted by `z.union([z.number(), z.string()])`. -/
inductive AtsId where
  | num (n : Int)
  | str (s : String)
deriving DecidableEq, Repr

/-- Schema `z.union([z.number(), z.string()])` for `id` attributes. -/
def zNumberOrString : Json → Option AtsId
  | .num n => some (.num n)
  | .str s => some (.str s)
  | _ => none

/-- Schema `z.array(sub)`. -/
def zArray (sub : Json → Option α) : Json → Option (List α)
  | .arr items => items.mapM sub
  | _ => none

/-- AtsCompany from atsCompanySchema. -/
structure AtsCompany where
  name : Option String
  uuid : String
  atsUrl : Option String
deriving DecidableEq, Repr

/-- atsCompanySchema: `name` and `ats-url` via `optionalWithNull`, `uuid`
required. -/
def parseAtsCompany : Json → Option AtsCompany
  | .obj kvs => do
      let name ← optionalWithNull zString (getField kvs "name")
      let uuid ← (getField kvs "uuid").bind zString
      let atsUrl ← optionalWithNull zString (getField kvs "ats-url")
      some ⟨name, uuid, atsUrl⟩
  | _ => none

/-- AtsRecruiter from atsRecruiterSchema. -/
structure AtsRecruiter where
  name : Option String
  firstName : Option String
  lastName : Option String
  email : String
  phone : Option String
  countryCallingCode : Option String
  atsUrl : Option String
deriving DecidableEq, Repr

/-- atsRecruiterSchema: `email` required, every other attribute via
`optionalWithNull`. -/
def parseAtsRecruiter : Json → Option AtsRecruiter
  | .obj kvs => do
      let name ← optionalWithNull zString (getField kvs "name")
      let firstName ← optionalWithNull zString (getField kvs "first-name")
      let lastName ← optionalWithNull zString (getField kvs "last-name")
      let email ← (getField kvs "email").bind zString
      let phone ← optionalWithNull zString (getField kvs "phone")
      let ccc ← optionalWithNull zString (getField kvs "country-calling-code")
      let atsUrl ← optionalWithNull zString (getField kvs "ats-url")
      some ⟨name, firstName, lastName, email, phone, ccc, atsUrl⟩
  | _ => none

/-- AtsJob from atsJobSchema. -/
structure AtsJob where
  id : AtsId
  title : String
  privateTitle : Option Bool
  clientName : Option String
  recruitingTeam : Option (List AtsRecruiter)
  atsUrl : Option String
  atsPublicKey : Option String
  atsName : Option String
  description : Option String
deriving DecidableEq, Repr

/-- atsJobSchema: `id` and `title` required, the rest via
`optionalWithNull`. -/
def parseAtsJob : Json → Option AtsJob
  | .obj kvs => do
      let id ← (getField kvs "id").bind zNumberOrString
      let title ← (getField kvs "title").bind zString
      let privateTitle ← optionalWithNull zBool (getField kvs "private-title")
      let clientName ← optionalWithNull zString (getField kvs "client-name")
      let team ← optionalWithNull (zArray parseAtsRecruiter) (getField kvs "recruiting-team")
      let atsUrl ← optionalWithNull zString (getField kvs "ats-url")
      let atsPublicKey ← optionalWithNull zString (getField kvs "ats-public-key")
      let atsName ← optionalWithNull zString (getField kvs "ats-name")
      let description ← optionalWithNull zString (getField kvs "description")
      some ⟨id, title, privateTitle, clientName, team, atsUrl, atsPublicKey, atsName, description⟩
  | _ => none

/-- AtsReferee from atsRefereeSchema. -/
structure AtsReferee where
  firstName : String
  lastName : String
  email : Option String
  phone : Option String
  countryCallingCode : Option String
  language : Option String
deriving DecidableEq, Repr

/-- atsRefereeSchema: names required, the rest via `optionalWithNull`. -/
def parseAtsReferee : Json → Option AtsReferee
  | .obj kvs => do
      let firstName ← (getField kvs "first-name").bind zString
      let lastName ← (getField kvs "last-name").bind zString
      let email ← optionalWithNull zString (getField kvs "email")
      let phone ← optionalWithNull zString (getField kvs "phone")
      let ccc ← optionalWithNull zString (getField kvs "country-calling-code")
      let language ← optionalWithNull zString (getField kvs "language")
      some ⟨firstName, lastName, email, phone, ccc, language⟩
  | _ => none

/-- AtsCandidate from atsCandidateSchema. -/
structure AtsCandidate where
  id : AtsId
  firstName : String
  lastName : String
  email : Option String
  phone : Option String
  countryCallingCode : Option String
  referees : Option (List AtsReferee)
  recruiter : AtsRecruiter
  job : AtsJob
  language : Option String
  atsUrl : Option String
deriving DecidableEq, Repr

/-- atsCandidateSchema: `id`, `first-name`, `last-name`, `recruiter` and
`job` required, the rest via `optionalWithNull`. -/
def parseAtsCandidate : Json → Option AtsCandidate
  | .obj kvs => do
      let id ← (getField kvs "id").bind zNumberOrString
      let firstName ← (getField kvs "first-name").bind zString
      let lastName ← (getField kvs "last-name").bind zString
      let email ← optionalWithNull zString (getField kvs "email")
      let phone ← optionalWithNull zString (getField kvs "phone")
      let ccc ← optionalWithNull zString (getField kvs "country-calling-code")
      let referees ← optionalWithNull (zArray parseAtsReferee) (getField kvs "referees")
      let recruiter ← (getField kvs "recruiter").bind parseAtsRecruiter
      let job ← (getField kvs "job").bind parseAtsJob
      let language ← optionalWithNull zString (getField kvs "language")
      let atsUrl ← optionalWithNull zString (getField kvs "ats-url")
      some ⟨id, firstName, lastName, email, phone, ccc, referees, recruiter, job, language, atsUrl⟩
  | _ => none

/-- AtsResultStatus from `atsResultStatusValues`. -/
inductive AtsResultStatus where
  | sending
  | sent
  | pending
  | completed
  | failed
deriving DecidableEq, Repr

/-- Schema `z.enum(atsResultStatusValues)`: five literal strings, anything
else — null included — fails. -/
def zAtsResultStatus : Json → Option AtsResultStatus
  | .str "sending" => some .sending
  | .str "sent" => some .sent
  | .str "pending" => some .pending
  | .str "completed" => some .completed
  | .str "failed" => some .failed
  | _ => none

/-- The inline `partner-result` object of atsPartnerEventSchema. -/
structure AtsPartnerResult where
  id : String
  status : Option AtsResultStatus
  updateUrl : Option String
deriving DecidableEq, Repr

/-- The `partner-result` sub-schema: `id` required, `status` via plain
`.optional()` (null is not coerced here, unlike every `optionalWithNull`
attribute), `update-url` via `optionalWithNull`. -/
def parseAtsPartnerResult : Json → Option AtsPartnerResult
  | .obj kvs => do
      let id ← (getField kvs "id").bind zString
      let status ← plainOptional zAtsResultStatus (getField kvs "status")
      let updateUrl ← optionalWithNull zString (getField kvs "update-url")
      some ⟨id, status, updateUrl⟩
  | _ => none

/-- Schema `atsWebhookDataValueSchema = z.union([z.string(), z.boolean(),
z.number()])` — the same union as `AtsConfigFieldValue`. -/
def zWebhookDataValue : Json → Option AtsConfigFieldValue
  | .str s => some (.str s)
  | .bool b => some (.bool b)
  | .num n => some (.num n)
  | _ => none

/-- Schema `z.record(atsWebhookDataValueSchema)`. -/
def zWebhookData : Json → Option (List (String × AtsConfigFieldValue))
  | .obj kvs => kvs.mapM (fun p => (zWebhookDataValue p.snd).map (fun v => (p.fst, v)))
  | _ => none

/-- AtsPartnerEvent from atsPartnerEventSchema. -/
structure AtsPartnerEvent where
  company : AtsCompany
  candidate : AtsCandidate
  partnerResult : AtsPartnerResult
  webhookData : Option (List (String × AtsConfigFieldValue))
deriving DecidableEq, Repr

/-- atsPartnerEventSchema: `company`, `candidate` and `partner-result`
required, `webhook-data` via `optionalWithNull`. -/
def parseAtsPartnerEvent : Json → Option AtsPartnerEvent
  | .obj kvs => do
      let company ← (getField kvs "company").bind parseAtsCompany
      let candidate ← (getField kvs "candidate").bind parseAtsCandidate
      let result ← (getField kvs "partner-result").bind parseAtsPartnerResult
      let webhookData ← optionalWithNull zWebhookData (getField kvs "webhook-data")
      some ⟨company, candidate, result, webhookData⟩
  | _ => none

end RefappApi

namespace RefappApi

theorem except_bind_ok {ε α β : Type} {x : Except ε α} {g : α → Except ε β} {b : β}
    (h : x.bind g = .ok b) : ∃ a, x = .ok a ∧ g a = .ok b := by
  cases x with
  | error e => simp [Except.bind] at h
  | ok a => exact ⟨a, rfl, by simpa [Except.bind] using h⟩

theorem getField_cons_self (k : String) (v : Json) (kvs : List (String × Json)) :
    getField ((k, v) :: kvs) k = some v := by
  simp [getField]

theorem getField_cons_ne (k k' : String) (v : Json) (kvs : List (String × Json))
    (h : k' ≠ k) : getField ((k', v) :: kvs) k = getField kvs k := by
  simp [getField, List.find?_cons_of_neg, h]

theorem parseFieldType_ok {oj : Option Json} {t : String}
    (h : parseFieldType oj = .ok t) : oj = some (.str t) ∧ t ∈ knownFieldTypes := by
  match oj with
  | none => simp [parseFieldType] at h
  | some (.str s) =>
      by_cases hs : s ∈ knownFieldTypes
      · simp [parseFieldType, hs] at h
        subst h; exact ⟨rfl, hs⟩
      · simp [parseFieldType, hs] at h
  | some .null | some (.bool _) | some (.num _) | some (.arr _) | some (.obj _) =>
      simp [parseFieldType] at h

theorem parseFieldType_unknown {t : String} (h : t ∉ knownFieldTypes) :
    parseFieldType (some (.str t)) = .error (.fieldShape "unrecognized-type") := by
  simp [parseFieldType, h]

theorem parseField_unknown_type {j : Json} {t : String}
    (htag : typeTagOf j = some t) (h : t ∉ knownFieldTypes) :
    parseField j = .error (.fieldShape "unrecognized-type") := by
  match j with
  | .null | .bool _ | .num _ | .str _ | .arr _ => simp [typeTagOf] at htag
  | .obj kvs =>
      have hg : getField kvs "type" = some (.str t) := by
        cases hg : getField kvs "type" with
        | none => simp [typeTagOf, hg] at htag
        | some v =>
            cases v <;> simp [typeTagOf, hg] at htag
            case str s => subst htag; rfl
      simp [parseField, hg, parseFieldType_unknown h, Except.bind]

theorem parseField_ok_type_known {j : Json} {f : AtsConfigField}
    (h : parseField j = .ok f) : f.type ∈ knownFieldTypes := by
  match j with
  | .null | .bool _ | .num _ | .str _ | .arr _ => simp [parseField] at h
  | .obj kvs =>
      simp only [parseField] at h
      obtain ⟨t, ht, h⟩ := except_bind_ok h
      obtain ⟨id, _, h⟩ := except_bind_ok h
      obtain ⟨label, _, h⟩ := except_bind_ok h
      obtain ⟨value, _, h⟩ := except_bind_ok h
      obtain ⟨ph, _, h⟩ := except_bind_ok h
      obtain ⟨opts, _, h⟩ := except_bind_ok h
      obtain ⟨dis, _, h⟩ := except_bind_ok h
      obtain ⟨lmd, _, h⟩ := except_bind_ok h
      obtain ⟨lh, _, h⟩ := except_bind_ok h
      obtain ⟨lc, _, h⟩ := except_bind_ok h
      cases h
      exact (parseFieldType_ok ht).2

theorem parseFields_mem_error {items : List Json} {j : Json} {e0 : ValidationError}
    (hmem : j ∈ items) (hj : parseField j = .error e0) :
    ∃ e, parseFields items = .error e := by
  induction items with
  | nil => cases hmem
  | cons a rest ih =>
      rcases List.mem_cons.mp hmem with rfl | hmem'
      · exact ⟨e0, by simp [parseFields, hj, Except.bind]⟩
      · cases hpa : parseField a with
        | error e => exact ⟨e, by simp [parseFields, hpa, Except.bind]⟩
        | ok f =>
            obtain ⟨e, he⟩ := ih hmem'
            exact ⟨e, by simp [parseFields, hpa, he, Except.bind]⟩

theorem parseFields_ok_types {items : List Json} {l : List AtsConfigField}
    (h : parseFields items = .ok l) : ∀ g ∈ l, g.type ∈ knownFieldTypes := by
  induction items generalizing l with
  | nil =>
      simp only [parseFields] at h
      cases h; simp
  | cons a rest ih =>
      simp only [parseFields] at h
      obtain ⟨f, hf, h⟩ := except_bind_ok h
      obtain ⟨fs, hfs, h⟩ := except_bind_ok h
      cases h
      intro g hg
      rcases List.mem_cons.mp hg with rfl | hg'
      · exact parseField_ok_type_known hf
      · exact ih hfs g hg'

end RefappApi

namespace RefappApi

/-- Concrete field entry with an unrecognized `type` tag, from the spec's
concrete scenario: `{id:"b",type:"bogus",label:"X"}`. -/
def bogusEntry : Json :=
  .obj [("id", .str "b"), ("type", .str "bogus"), ("label", .str "X")]

/-- Envelope `{config:{fields:[bogusEntry]}}`. -/
def bogusDocKvs : List (String × Json) :=
  [("config", .obj [("fields", .arr [bogusEntry])])]

/-- C2: a document containing a field entry with an unrecognized `type` tag is
rejected by validation with a typed `ValidationError`, and the pipeline
produces zero control descriptors (the mapper only ever runs on the payload
of a successful validation, which does not exist here). -/
theorem c2_unknown_type_rejected
    (kvs ckvs : List (String × Json)) (items : List Json) (entry : Json) (t : String)
    (hconf : getField kvs "config" = some (.obj ckvs))
    (hfields : getField ckvs "fields" = some (.arr items))
    (hmem : entry ∈ items)
    (htag : typeTagOf entry = some t)
    (hunk : t ∉ knownFieldTypes) :
    ∃ e, validate (.obj kvs) = .error e ∧ describeDocument (.obj kvs) = .error e := by
  have hj := parseField_unknown_type htag hunk
  obtain ⟨e, he⟩ := parseFields_mem_error hmem hj
  refine ⟨e, ?_, ?_⟩
  · simp [validate, hconf, hfields, he]
  · simp [describeDocument, validate, hconf, hfields, he, Except.map]

/-- C2 witness: the concrete scenario `{config:{fields:[{id:"b",type:"bogus",
label:"X"}]}}` is rejected and yields no descriptors. -/
theorem c2_unknown_type_rejected_witness :
    ∃ e, validate (.obj bogusDocKvs) = .error e ∧
      describeDocument (.obj bogusDocKvs) = .error e :=
  c2_unknown_type_rejected bogusDocKvs [("fields", .arr [bogusEntry])] [bogusEntry]
    bogusEntry "bogus" rfl rfl (List.mem_singleton.mpr rfl) rfl (by decide)

end RefappApi

namespace RefappApi

/-- C1: the severity mapping of label fields is total over the six possible
`label-class` inputs: `undefined` and `"default"` yield no alert wrapper, and
each of `info`/`warning`/`error`/`success` yields an alert wrapper carrying
exactly that severity; every input falls in one of these two shapes. -/
theorem c1_severity_mapping_total :
    toSeverity none = none ∧
    toSeverity (some .default) = none ∧
    toSeverity (some .info) = some .info ∧
    toSeverity (some .warning) = some .warning ∧
    toSeverity (some .error) = some .error ∧
    toSeverity (some .success) = some .success ∧
    (∀ body : TextBody,
      TextContainer none body = .fragment body ∧
      TextContainer (some .default) body = .fragment body ∧
      TextContainer (some .info) body = .alert .info body ∧
      TextContainer (some .warning) body = .alert .warning body ∧
      TextContainer (some .error) body = .alert .error body ∧
      TextContainer (some .success) body = .alert .success body) ∧
    (∀ (c : Option InfoClass) (body : TextBody),
      TextContainer c body = .fragment body ∨
      ∃ s, toSeverity c = some s ∧ TextContainer c body = .alert s body) := by
  refine ⟨rfl, rfl, rfl, rfl, rfl, rfl, fun body => ⟨rfl, rfl, rfl, rfl, rfl, rfl⟩, ?_⟩
  intro c body
  match c with
  | none | some .default => exact Or.inl rfl
  | some .info => exact Or.inr ⟨.info, rfl, rfl⟩
  | some .warning => exact Or.inr ⟨.warning, rfl, rfl⟩
  | some .error => exact Or.inr ⟨.error, rfl, rfl⟩
  | some .success => exact Or.inr ⟨.success, rfl, rfl⟩

/-- Concrete select field with an empty `options` array, from the spec's
concrete scenario: `{id:"a",type:"select",label:"Pick",options:[]}`. -/
def selectEmptyOptions : AtsConfigField :=
  { id := "a", type := "select", label := "Pick", options := some [] }

/-- Concrete select field with `options` absent. -/
def selectAbsentOptions : AtsConfigField :=
  { id := "n", type := "select", label := "NoOpts" }

/-- Envelope holding the empty-options select entry as raw JSON. -/
def selectEmptyOptionsDoc : Json :=
  .obj [("config", .obj [("fields", .arr
    [.obj [("id", .str "a"), ("type", .str "select"), ("label", .str "Pick"),
           ("options", .arr [])]])])]

/-- C3 counterexample: the select field `{id:"a",type:"select",label:"Pick",
options:[]}` is NOT marked no-render — `field.options ?` is truthy on the
empty array, so the mapper renders a select control with zero options. -/
theorem c3_empty_options_renders :
    describe selectEmptyOptions = some (.selectControl "a" "Pick" "" none []) ∧
    describe selectEmptyOptions ≠ some .noRender := by
  exact ⟨rfl, by decide⟩

/-- C3 amended: a select field renders nothing only when `options` is absent
(undefined); a select whose `options` is present — the empty array included —
renders a select control bound to those options. The concrete empty-options
document validates successfully and yields the rendered empty select, not an
error. -/
theorem c3_select_options_rendering (f : AtsConfigField) (hty : f.type = "select") :
    (f.options = none → describe f = some .noRender) ∧
    (∀ opts, f.options = some opts →
      describe f = some (.selectControl f.id f.label (strOrEmpty f.value) f.disabled opts)) ∧
    validate selectEmptyOptionsDoc = .ok [selectEmptyOptions] ∧
    describe selectEmptyOptions = some (.selectControl "a" "Pick" "" none []) := by
  refine ⟨?_, ?_, rfl, rfl⟩
  · intro hopts; simp [describe, hty, hopts]
  · intro opts hopts; simp [describe, hty, hopts]

/-- C3 witness: a select with absent `options` is marked no-render. -/
theorem c3_select_options_rendering_witness :
    describe selectAbsentOptions = some .noRender :=
  (c3_select_options_rendering selectAbsentOptions rfl).1 rfl

end RefappApi

namespace RefappApi

/-- Concrete select field whose string `value` `"y"` matches no option id. -/
def selectUnmatchedValue : AtsConfigField :=
  { id := "s", type := "select", label := "S", value := some (.str "y"),
    options := some [⟨"x", "X"⟩] }

/-- Concrete select field whose string `value` `"x"` matches the only option
id. -/
def selectMatchedValue : AtsConfigField :=
  { id := "s2", type := "select", label := "S2", value := some (.str "x"),
    options := some [⟨"x", "X"⟩] }

/-- C4 counterexample: for the select field with `value:"y"` and options
`[{id:"x"}]`, the emitted initial value is `"y"` — the code only checks
`_.isString(value)`, it never compares the value against the option ids — yet
`"y"` matches no option id and is not `""`, so the claimed iff fails here. -/
theorem c4_no_option_membership_check :
    describe selectUnmatchedValue = some (.selectControl "s" "S" "y" none [⟨"x", "X"⟩]) ∧
    ("y" ∈ (selectUnmatchedValue.options.getD []).map HtmlConfigOption.id) = False ∧
    "y" ≠ "" := by
  refine ⟨rfl, by simp [selectUnmatchedValue], by decide⟩

/-- C4 amended: for every select field with `options` present, the initial
value of the emitted control is the field's `value` exactly when that value is
a string — no matter whether it matches an option id — and `""` otherwise. -/
theorem c4_select_initial_value (f : AtsConfigField) (opts : List HtmlConfigOption)
    (hty : f.type = "select") (hopts : f.options = some opts) :
    describe f = some (.selectControl f.id f.label (strOrEmpty f.value) f.disabled opts) ∧
    (∀ s, f.value = some (.str s) → strOrEmpty f.value = s) ∧
    (∀ v, f.value = some v → (∀ s, v ≠ .str s) → strOrEmpty f.value = "") ∧
    (f.value = none → strOrEmpty f.value = "") := by
  refine ⟨by simp [describe, hty, hopts], ?_, ?_, ?_⟩
  · intro s hs; simp [strOrEmpty, hs]
  · intro v hv hns
    match v, hns with
    | .bool b, _ => simp [strOrEmpty, hv]
    | .num n, _ => simp [strOrEmpty, hv]
    | .str s, hns => exact absurd rfl (hns s)
  · intro hn; simp [strOrEmpty, hn]

/-- C4 witness: the select whose `value` is the string `"x"` gets initial
value `"x"`. -/
theorem c4_select_initial_value_witness :
    describe selectMatchedValue =
      some (.selectControl selectMatchedValue.id selectMatchedValue.label
        (strOrEmpty selectMatchedValue.value) selectMatchedValue.disabled [⟨"x", "X"⟩]) :=
  (c4_select_initial_value selectMatchedValue [⟨"x", "X"⟩] rfl rfl).1

/-- Concrete checkbox field carrying the wrong-subtype value `"yes"`. -/
def checkboxYes : AtsConfigField :=
  { id := "c", type := "checkbox", label := "Subscribe", value := some (.str "yes") }

/-- C5: a checkbox field whose `value` is present but not a boolean still maps
to a checkbox control — the field is kept, no error — and its initial checked
state is `false` (`_.isBoolean(value) ? value : false`). -/
theorem c5_checkbox_nonbool_false (f : AtsConfigField) (v : AtsConfigFieldValue)
    (hty : f.type = "checkbox") (hv : f.value = some v) (hnb : ∀ b, v ≠ .bool b) :
    describe f = some (.checkboxControl f.label f.disabled false) := by
  have hcoerce : boolOrFalse f.value = false := by
    match v, hnb with
    | .str s, _ => simp [boolOrFalse, hv]
    | .num n, _ => simp [boolOrFalse, hv]
    | .bool b, hnb => exact absurd rfl (hnb b)
  simp [describe, hty, hcoerce]

/-- C5 witness: the checkbox with `value:"yes"` maps to an unchecked checkbox
control. -/
theorem c5_checkbox_nonbool_false_witness :
    describe checkboxYes = some (.checkboxControl "Subscribe" none false) :=
  c5_checkbox_nonbool_false checkboxYes (.str "yes") rfl rfl (by decide)

/-- C7: the preview renders exactly one control descriptor per input field, in
input order: the output sequence has the length of the input and its i-th
entry is the descriptor of the i-th field — nothing reordered, deduplicated
or filtered (a select with absent options still contributes its no-render
descriptor as an entry). -/
theorem c7_order_preserved (configFields : List AtsConfigField) :
    (AtsConfigPreview configFields).length = configFields.length ∧
    ∀ i : Nat, (AtsConfigPreview configFields)[i]? = (configFields[i]?).map describe := by
  refine ⟨by simp [AtsConfigPreview], ?_⟩
  intro i
  simp [AtsConfigPreview]

end RefappApi

namespace RefappApi

/-- C8 counterexample: the `AtsConfigField` union has exactly six known
`type` tags — `select`, `checkbox`, `text`, `header`, `subheader`,
`paragraph` — not seven. -/
theorem c8_six_known_tags :
    knownFieldTypes = ["select", "checkbox", "text", "header", "subheader", "paragraph"] ∧
    knownFieldTypes.length = 6 ∧
    knownFieldTypes.length ≠ 7 := by
  refine ⟨rfl, rfl, by decide⟩

/-- Concrete text field used as the C8 witness input. -/
def textFieldSample : AtsConfigField :=
  { id := "t", type := "text", label := "Free text" }

/-- C8 amended: the mapper is a deterministic total function over the six
known tags: every field whose tag is known — in particular every field of a
successfully validated document — maps to `some` descriptor, so the
`assertIsNever` fall-through (`none`) is unreachable and no known tag is
silently dropped. -/
theorem c8_mapper_total (f : AtsConfigField) (hf : f.type ∈ knownFieldTypes) :
    (∃ d, describe f = some d) ∧
    (∀ raw l, validate raw = .ok l → ∀ g ∈ l, g.type ∈ knownFieldTypes ∧ ∃ d, describe g = some d) := by
  have total : ∀ g : AtsConfigField, g.type ∈ knownFieldTypes → ∃ d, describe g = some d := by
    intro g hg
    rw [← Option.isSome_iff_exists]
    simp [knownFieldTypes, interactiveFieldTypes, refappLabelFieldTypes] at hg
    rcases hg with h | h | h | h | h | h
    · cases hopts : g.options with
      | some opts => simp [describe, h, hopts]
      | none => simp [describe, h, hopts]
    · simp [describe, h]
    · simp [describe, h]
    · simp [describe, h]
    · simp [describe, h]
    · simp [describe, h]
  refine ⟨total f hf, ?_⟩
  intro raw l hv g hg
  have hknown : g.type ∈ knownFieldTypes := by
    match raw, hv with
    | .obj kvs, hv =>
        simp only [validate] at hv
        cases hconf : getField kvs "config" with
        | none => simp [hconf] at hv
        | some cv =>
            cases cv <;> simp [hconf] at hv
            case obj ckvs =>
              cases hfields : getField ckvs "fields" with
              | none => simp [hfields] at hv
              | some fv =>
                  cases fv <;> simp [hfields] at hv
                  case arr items => exact parseFields_ok_types hv g hg
  exact ⟨hknown, total g hknown⟩

/-- C8 witness: the sample text field has a known tag and maps to a
descriptor. -/
theorem c8_mapper_total_witness :
    ∃ d, describe textFieldSample = some d :=
  (c8_mapper_total textFieldSample (by decide)).1

end RefappApi

namespace RefappApi

/-- Concrete header field whose `label-markdown` key is present but holds the
empty string. -/
def headerEmptyMarkdown : AtsConfigField :=
  { id := "h", type := "header", label := "Heading", labelMarkdown := some "" }

/-- Concrete header field with non-empty `label-markdown`. -/
def headerWithMarkdown : AtsConfigField :=
  { id := "m", type := "header", label := "L", labelMarkdown := some "**bold**" }

/-- C9 counterexample: for the header field whose `label-markdown` is present
but equal to `""`, the mapper does NOT emit the markdown rendering — the
truthiness test `field["label-markdown"] ?` is false on the empty string, so
the plain `label` is emitted with the h3 variant. -/
theorem c9_empty_markdown_not_preferred :
    headerEmptyMarkdown.labelMarkdown = some "" ∧
    describe headerEmptyMarkdown =
      some (.textBlock (.fragment (.plain (some .h3) "Heading"))) ∧
    (∀ md, describe headerEmptyMarkdown ≠ some (.textBlock (.fragment (.markdown md)))) := by
  refine ⟨rfl, rfl, ?_⟩
  intro md h
  have h2 : describe headerEmptyMarkdown =
      some (.textBlock (.fragment (.plain (some .h3) "Heading"))) := rfl
  rw [h2] at h
  simp at h

/-- C9 amended: for every label field, a present and non-empty
`label-markdown` is emitted as the markdown rendering in preference to the
plain `label`; when `label-markdown` is absent, the plain `label` is emitted
with the tag-determined display weight: `header` → h3, `subheader` → h4,
`paragraph` → body1. -/
theorem c9_markdown_preference (f : AtsConfigField) (hf : f.type ∈ refappLabelFieldTypes) :
    (∀ md, f.labelMarkdown = some md → md ≠ "" →
      describe f = some (.textBlock (TextContainer f.labelClass (.markdown md)))) ∧
    (f.labelMarkdown = none →
      describe f = some (.textBlock (TextContainer f.labelClass
        (.plain (textVariantFromFieldType f.type) f.label)))) ∧
    textVariantFromFieldType "header" = some .h3 ∧
    textVariantFromFieldType "subheader" = some .h4 ∧
    textVariantFromFieldType "paragraph" = some .body1 := by
  simp only [refappLabelFieldTypes, List.mem_cons, List.mem_singleton,
    List.not_mem_nil, or_false] at hf
  refine ⟨?_, ?_, rfl, rfl, rfl⟩
  · intro md hmd hne
    rcases hf with h | h | h <;> simp [describe, h, labelContent, hmd, hne]
  · intro hmd
    rcases hf with h | h | h <;> simp [describe, h, labelContent, hmd]

/-- C9 witness: the header with `label-markdown:"**bold**"` renders the
markdown, not the plain label. -/
theorem c9_markdown_preference_witness :
    describe headerWithMarkdown =
      some (.textBlock (TextContainer headerWithMarkdown.labelClass (.markdown "**bold**"))) :=
  (c9_markdown_preference headerWithMarkdown (by decide)).1 "**bold**" rfl (by decide)

/-- C10: for every label field whose `label-markdown` is present but empty,
the mapper behaves exactly as if `label-markdown` were absent: it falls back
to the plain `label` with the tag-determined variant, and the rendering
equals that of the same field with the key removed. -/
theorem c10_empty_markdown_like_absent (f : AtsConfigField)
    (hf : f.type ∈ refappLabelFieldTypes) (hmd : f.labelMarkdown = some "") :
    describe f = describe { f with labelMarkdown := none } ∧
    describe f = some (.textBlock (TextContainer f.labelClass
      (.plain (textVariantFromFieldType f.type) f.label))) := by
  simp only [refappLabelFieldTypes, List.mem_cons, List.mem_singleton,
    List.not_mem_nil, or_false] at hf
  rcases hf with h | h | h <;>
    exact ⟨by simp [describe, h, labelContent, hmd],
           by simp [describe, h, labelContent, hmd]⟩

/-- C10 witness: the header field with `label-markdown:""` renders exactly as
with the key absent. -/
theorem c10_empty_markdown_like_absent_witness :
    describe headerEmptyMarkdown = describe { headerEmptyMarkdown with labelMarkdown := none } :=
  (c10_empty_markdown_like_absent headerEmptyMarkdown (by decide) rfl).1

end RefappApi

namespace RefappApi

/-- Minimal valid recruiter object (`email` is the only required
attribute). -/
def recruiterJson : Json := .obj [("email", .str "richard.roe@agency.example")]

/-- Minimal valid job object. -/
def jobJson : Json := .obj [("id", .str "j1"), ("title", .str "Backend Engineer")]

/-- Minimal valid candidate object. -/
def candidateJson : Json :=
  .obj [("id", .str "c1"), ("first-name", .str "John"), ("last-name", .str "Doe"),
        ("recruiter", recruiterJson), ("job", jobJson)]

/-- Minimal valid company object. -/
def companyJson : Json := .obj [("uuid", .str "u1")]

/-- Partner-event object entries with the given `partner-result` entries;
`webhook-data` is left absent. -/
def partnerEventKvs (pr : List (String × Json)) : List (String × Json) :=
  [("company", companyJson), ("candidate", candidateJson), ("partner-result", .obj pr)]

/-- Valid partner-event document whose `partner-result` omits `status`. -/
def partnerEventOkKvs : List (String × Json) := partnerEventKvs [("id", .str "r1")]

/-- The same partner-event document with `"status": null` added inside
`partner-result` — the only difference from `partnerEventOkKvs`. -/
def partnerEventNullStatusKvs : List (String × Json) :=
  partnerEventKvs [("id", .str "r1"), ("status", Json.null)]

/-- C6 counterexample: `partner-result.status` is an optional attribute of
`atsPartnerEventSchema`, but it is declared with plain `.optional()` rather
than `optionalWithNull`, so `z.enum` rejects null: the document with `status`
omitted validates, while the otherwise-identical document with
`"status": null` is rejected — null and omission are not equivalent for this
optional attribute. -/
theorem c6_status_null_not_omitted :
    (parseAtsPartnerEvent (.obj partnerEventOkKvs)).isSome = true ∧
    parseAtsPartnerEvent (.obj partnerEventNullStatusKvs) = none := by
  refine ⟨by decide, by decide⟩

/-- C6 amended: the null-to-undefined coercion holds exactly for the optional
attributes declared via the `optionalWithNull` helper: at the combinator
level null and absence parse identically, and at the document level adding
`"webhook-data": null` to a partner event that omits it leaves the validation
result unchanged. It does not hold for the plain `.optional()` attribute
`partner-result.status`. -/
theorem c6_null_equiv_for_optionalWithNull (kvs : List (String × Json))
    (habsent : getField kvs "webhook-data" = none) :
    parseAtsPartnerEvent (.obj (("webhook-data", Json.null) :: kvs)) =
      parseAtsPartnerEvent (.obj kvs) ∧
    (∀ (α : Type) (sub : Json → Option α),
      optionalWithNull sub (some Json.null) = optionalWithNull sub none) := by
  refine ⟨?_, fun α sub => rfl⟩
  have hc : getField (("webhook-data", Json.null) :: kvs) "company" = getField kvs "company" :=
    getField_cons_ne _ _ _ _ (by decide)
  have hca : getField (("webhook-data", Json.null) :: kvs) "candidate" = getField kvs "candidate" :=
    getField_cons_ne _ _ _ _ (by decide)
  have hpr : getField (("webhook-data", Json.null) :: kvs) "partner-result" = getField kvs "partner-result" :=
    getField_cons_ne _ _ _ _ (by decide)
  have hwd : getField (("webhook-data", Json.null) :: kvs) "webhook-data" = some Json.null :=
    getField_cons_self _ _ _
  simp only [parseAtsPartnerEvent, hc, hca, hpr, hwd, habsent, optionalWithNull]

/-- C6 witness: adding `"webhook-data": null` to the concrete valid partner
event leaves its validation result unchanged. -/
theorem c6_null_equiv_for_optionalWithNull_witness :
    parseAtsPartnerEvent (.obj (("webhook-data", Json.null) :: partnerEventOkKvs)) =
      parseAtsPartnerEvent (.obj partnerEventOkKvs) :=
  (c6_null_equiv_for_optionalWithNull partnerEventOkKvs rfl).1

end RefappApi
